import Mathlib

/-!
# Verification of the mss-metro-ai enrichment and comparison core

Shallow embedding of the asynchronous image enrichment/comparison pipeline:

* `app/workers/image_processing.py` — the Celery tasks `process_image_task`,
  `compare_images_task` and the async bodies `_process_image_async`,
  `_compare_images_async`;
* `app/services/langchain_service.py` — `_detect_changes`,
  `structure_comparison_response`, `_calculate_confidence`;
* `app/clients/cache.py` — the Redis key/value cache (`get`/`set`);
* `app/routes/uploads.py` — sequence assignment at upload time;
* `app/routes/queries.py` — the `/compare` route.

External collaborators (S3 blob fetch, the embedding and caption capabilities,
the OpenSearch index client) are modelled as explicit function parameters, as
the spec treats them as black-box capabilities with fixed contracts.
-/

namespace MetroAI

/-- Decidable equality for `Except`, so that concrete pipeline outcomes can be
settled by `decide`. -/
instance {ε α : Type} [DecidableEq ε] [DecidableEq α] : DecidableEq (Except ε α)
  | .ok x, .ok y =>
    if h : x = y then .isTrue (by rw [h])
    else .isFalse (fun hh => h (Except.ok.inj hh))
  | .ok _, .error _ => .isFalse (fun hh => Except.noConfusion hh)
  | .error _, .ok _ => .isFalse (fun hh => Except.noConfusion hh)
  | .error e, .error f =>
    if h : e = f then .isTrue (by rw [h])
    else .isFalse (fun hh => h (Except.error.inj hh))

/-! ## Content Cache (`app/clients/cache.py`)

The Redis cache is a string-keyed, string-valued store.  `set` overwrites,
`get` returns the latest value for the key or `none`.  We model the store as
an association list where `set` conses and `get` takes the first match. -/

abbrev Cache := List (String × String)

def cacheGet (c : Cache) (k : String) : Option String :=
  match c.find? (fun p => p.1 = k) with
  | some p => some p.2
  | none => none

def cacheSet (c : Cache) (k v : String) : Cache :=
  (k, v) :: c

/-- Python truthiness of an `str | None` value: `None` and `""` are falsy. -/
def strTruthy : Option String → Bool
  | none => false
  | some s => s ≠ ""

/-! ## Worker Dispatcher retry policy (`app/workers/image_processing.py`)

Both Celery tasks are declared with `max_retries=3` and, on any exception,
call `self.retry(exc=e, countdown=2**self.request.retries)`:
`self.request.retries` is the current retry count (0 on the first attempt).
Celery re-enqueues with the given countdown and retry count + 1 while
`retries < max_retries`, and marks the invocation permanently failed once
the budget is exhausted. -/

inductive RetryDecision where
  | acknowledged
  | retryAfter (countdown : Nat) (next_retry_count : Nat)
  | permanentFailure
deriving DecidableEq, Repr

def maxRetries : Nat := 3

/-- Failure handler of both tasks: `self.retry(exc=e, countdown=2**self.request.retries)`
under `max_retries = 3`. -/
def onTaskException (retry_count : Nat) : RetryDecision :=
  if retry_count < maxRetries then
    .retryAfter (2 ^ retry_count) (retry_count + 1)
  else
    .permanentFailure

/-! ## Enrichment pipeline (`_process_image_async`) -/

/-- Raw image bytes. -/
abbrev Bytes := List Nat

/-- An embedding vector (the pipeline only passes it through and takes its
length, so the numeric carrier is irrelevant). -/
abbrev Vec := List Int

/-- Exceptions that can abort a pipeline attempt. -/
inductive PErr where
  | blobFetch
  | jsonDecode
  | embedFail
  | captionFail
  | compareFail
deriving DecidableEq, Repr

/-- External collaborators of the enrichment pipeline, as pure functions:
S3 `get_object` + body read, `json.loads`/`json.dumps` for embedding vectors,
`embedding_service.generate_image_embedding` and
`vlm_service.generate_caption`. -/
structure EnrichEnv where
  fetchBlob : String → Except PErr Bytes
  jsonLoadsVec : String → Option Vec
  jsonDumpsVec : Vec → String
  embedImage : Bytes → Except PErr Vec
  generateCaption : Bytes → Except PErr String

def embeddingKey (image_id : String) : String := "embedding:" ++ image_id

def captionKey (image_id : String) : String := "caption:" ++ image_id

/-- Splitter for Python `s.split("/")`: split at every `/`, keeping empty
segments (Python keeps them when an explicit separator is given), so the
result is always non-empty.  `cur` holds the current segment in reverse. -/
def splitSlashAux (cur : List Char) : List Char → List (List Char)
  | [] => [cur.reverse]
  | c :: cs =>
    if c = '/' then cur.reverse :: splitSlashAux [] cs
    else splitSlashAux (c :: cur) cs

/-- `s3_key.split("/")[-1]`. -/
def lastSegment (s : String) : String :=
  String.mk ((splitSlashAux [] s.data).getLastD [])

/-- The record passed to `opensearch.store_image` in step 5. -/
structure ImageRecord where
  project_id : String
  image_id : String
  s3_key : String
  filename : String
  embedding : Vec
  sequence_number : Nat
  text_description : String
  metadata_size_bytes : Nat
deriving DecidableEq, Repr

/-- The dict returned by `_process_image_async` on success. -/
structure ProcessResult where
  status : String
  project_id : String
  image_id : String
  caption : String
  embedding_dimension : Nat
  sequence_number : Nat
deriving DecidableEq, Repr

/-- Result of one cache-then-compute step: the computed value (or the
exception), the cache after the step, and whether the external capability
was invoked. -/
structure StepOut (α : Type) where
  value : Except PErr α
  cacheOut : Cache
  called : Bool
deriving Repr

/-- The `else` branch of the embedding step: call the embedding capability
and cache the JSON-serialized result. -/
def embedCompute (env : EnrichEnv) (c : Cache) (image_id : String) (data : Bytes) :
    StepOut Vec :=
  match env.embedImage data with
  | .ok v => ⟨.ok v, cacheSet c (embeddingKey image_id) (env.jsonDumpsVec v), true⟩
  | .error e => ⟨.error e, c, true⟩

/-- Lines 48–62: read `cache.get("embedding:" + image_id)`; a truthy value is
decoded with `json.loads` (which raises on malformed input); otherwise the
embedding capability is called and the result cached. -/
def embedStep (env : EnrichEnv) (c : Cache) (image_id : String) (data : Bytes) :
    StepOut Vec :=
  match cacheGet c (embeddingKey image_id) with
  | some s =>
    if s = "" then embedCompute env c image_id data
    else
      match env.jsonLoadsVec s with
      | some v => ⟨.ok v, c, false⟩
      | none => ⟨.error .jsonDecode, c, false⟩
  | none => embedCompute env c image_id data

/-- The `else` branch of the caption step: call the caption capability and
cache the raw string. -/
def captionCompute (env : EnrichEnv) (c : Cache) (image_id : String) (data : Bytes) :
    StepOut String :=
  match env.generateCaption data with
  | .ok cap => ⟨.ok cap, cacheSet c (captionKey image_id) cap, true⟩
  | .error e => ⟨.error e, c, true⟩

/-- Lines 64–74: read `cache.get("caption:" + image_id)`; a truthy value is
used directly; otherwise the caption capability is called and the result
cached. -/
def captionStep (env : EnrichEnv) (c : Cache) (image_id : String) (data : Bytes) :
    StepOut String :=
  match cacheGet c (captionKey image_id) with
  | some s =>
    if s = "" then captionCompute env c image_id data
    else ⟨.ok s, c, false⟩
  | none => captionCompute env c image_id data

/-- Full outcome of one `_process_image_async` attempt: the returned dict or
the exception, the cache afterwards, the record handed to
`opensearch.store_image` (if reached), and which capabilities were invoked. -/
structure EnrichOutcome where
  result : Except PErr ProcessResult
  cacheOut : Cache
  indexWrite : Option ImageRecord
  embedCalled : Bool
  captionCalled : Bool
deriving Repr

/-- `_process_image_async(project_id, image_id, s3_key, sequence_number)`:
blob fetch, cached embedding step, cached caption step, filename derivation,
index write. -/
def processImageAsync (env : EnrichEnv) (c : Cache)
    (project_id image_id s3_key : String) (sequence_number : Nat) : EnrichOutcome :=
  match env.fetchBlob s3_key with
  | .error e =>
    { result := .error e, cacheOut := c, indexWrite := none,
      embedCalled := false, captionCalled := false }
  | .ok image_data =>
    let e1 := embedStep env c image_id image_data
    match e1.value with
    | .error e =>
      { result := .error e, cacheOut := e1.cacheOut, indexWrite := none,
        embedCalled := e1.called, captionCalled := false }
    | .ok embedding =>
      let e2 := captionStep env e1.cacheOut image_id image_data
      match e2.value with
      | .error e =>
        { result := .error e, cacheOut := e2.cacheOut, indexWrite := none,
          embedCalled := e1.called, captionCalled := e2.called }
      | .ok caption =>
        { result := .ok
            { status := "success", project_id := project_id, image_id := image_id,
              caption := caption, embedding_dimension := embedding.length,
              sequence_number := sequence_number },
          cacheOut := e2.cacheOut,
          indexWrite := some
            { project_id := project_id, image_id := image_id, s3_key := s3_key,
              filename := lastSegment s3_key, embedding := embedding,
              sequence_number := sequence_number, text_description := caption,
              metadata_size_bytes := image_data.length },
          embedCalled := e1.called, captionCalled := e2.called }

/-! ## Comparison pipeline (`_compare_images_async`) -/

/-- Output of `vlm_service.compare_images`. -/
structure CompareDescs where
  image_1_description : String
  image_2_description : String
  summary : String
deriving DecidableEq, Repr

/-- External collaborators of the comparison pipeline:
`opensearch.get_by_sequence`, S3 blob fetch, and
`vlm_service.compare_images`. -/
structure CompareEnv where
  getBySequence : String → Nat → Option ImageRecord
  fetchBlob : String → Except PErr Bytes
  compareImages : Bytes → Bytes → Except PErr CompareDescs

/-- The dict returned by `_compare_images_async`: either the
`{"status": "error", "message": ...}` shape or the
`{"status": "success", ...}` shape. -/
inductive CompareResult where
  | errorDict (message : String)
  | successDict (project_id : String) (seq1 : Nat) (desc1 : String)
      (seq2 : Nat) (desc2 : String) (comparison_summary : String)
deriving DecidableEq, Repr

/-- `_compare_images_async(project_id, sequence_1, sequence_2)`: resolve both
records (returning an error-status dict, without raising, when either is
missing), fetch both blobs, call the comparison capability, and assemble the
success dict. -/
def compareImagesAsync (env : CompareEnv) (project_id : String)
    (sequence_1 sequence_2 : Nat) : Except PErr CompareResult :=
  match env.getBySequence project_id sequence_1,
        env.getBySequence project_id sequence_2 with
  | some image_1, some image_2 =>
    match env.fetchBlob image_1.s3_key with
    | .error e => .error e
    | .ok image_1_data =>
      match env.fetchBlob image_2.s3_key with
      | .error e => .error e
      | .ok image_2_data =>
        match env.compareImages image_1_data image_2_data with
        | .error e => .error e
        | .ok comparison =>
          .ok (.successDict project_id
            sequence_1 comparison.image_1_description
            sequence_2 comparison.image_2_description
            comparison.summary)
  | _, _ => .ok (.errorDict "Images not found")

/-- The Celery task wrapper shared by `process_image_task` and
`compare_images_task`: an exception triggers `self.retry`, a normal return is
acknowledged. -/
def taskDispatch {α : Type} (retry_count : Nat) (result : Except PErr α) :
    RetryDecision :=
  match result with
  | .ok _ => .acknowledged
  | .error _ => onTaskException retry_count

/-! ## Change detection (`langchain_service._detect_changes`) -/

/-- One entry of the `changes` list. -/
structure Change where
  type : String
  description : String
deriving DecidableEq, Repr

/-- Splitter for Python `str.split()` with no separator: accumulate maximal
runs of non-whitespace characters, dropping all empty tokens.  `cur` holds
the characters of the current word in reverse. -/
def wordsAux (cur : List Char) : List Char → List (List Char)
  | [] => if cur = [] then [] else [cur.reverse]
  | c :: cs =>
    if c.isWhitespace then
      if cur = [] then wordsAux [] cs else cur.reverse :: wordsAux [] cs
    else wordsAux (c :: cur) cs

/-- Python `desc.lower().split()`: lowercase every character, then split on
whitespace runs, dropping empty tokens. -/
def pyWords (s : String) : List String :=
  (wordsAux [] (s.data.map Char.toLower)).map String.mk

/-- Python set difference `set(xs) - set(ys)` as a deduplicated list. -/
def setDiff (xs ys : List String) : List String :=
  xs.dedup.filter (fun w => decide (w ∉ ys))

/-- `_detect_changes(desc_1, desc_2)`: diff the lowercased token sets;
tokens only in the second give an `addition` entry, only in the first a
`removal` entry, and an empty diff gives a single `similar` entry. -/
def detectChanges (desc_1 desc_2 : String) : List Change :=
  let words_1 := pyWords desc_1
  let words_2 := pyWords desc_2
  let added := setDiff words_2 words_1
  let removed := setDiff words_1 words_2
  let changes :=
    (if added ≠ [] then
      [⟨"addition", "New elements detected: " ++ String.intercalate ", " (added.take 5)⟩]
     else []) ++
    (if removed ≠ [] then
      [⟨"removal", "Elements removed: " ++ String.intercalate ", " (removed.take 5)⟩]
     else [])
  if changes = [] then
    [⟨"similar", "Images appear similar with no major changes detected."⟩]
  else changes

/-! ## Structured comparison response
(`langchain_service.structure_comparison_response`) -/

/-- The structured comparison dict.  The Python float `0.85` is modelled as
the rational `85/100`. -/
structure ComparisonStructured where
  changes : List Change
  summary : String
  image_1_description : String
  image_2_description : String
  confidence : ℚ
deriving DecidableEq, Repr

/-- `structure_comparison_response(image_1_desc, image_2_desc, question)`
(success path; every step of the body is total, so the `except` branch is
unreachable).  The confidence is the literal `0.85`. -/
def structureComparisonResponse (image_1_desc image_2_desc question : String) :
    ComparisonStructured :=
  { changes := detectChanges image_1_desc image_2_desc,
    summary := "Comparing images: Image 1 shows " ++ image_1_desc ++
      ". Image 2 shows " ++ image_2_desc ++ ".",
    image_1_description := image_1_desc,
    image_2_description := image_2_desc,
    confidence := 85/100 }

/-- The spec's description of the comparison confidence source, for
refutation: "fraction of the two descriptions that are non-empty".
Written from the spec's words, not from the source. -/
def specFractionNonEmpty (image_1_desc image_2_desc : String) : ℚ :=
  ((if image_1_desc ≠ "" then 1 else 0) + (if image_2_desc ≠ "" then 1 else 0)) / 2

/-! ## `/compare` route (`app/routes/queries.py`) -/

/-- Modelled from the spec: `opensearch.compare_images` (the OpenSearch
client is not under `src/`).  §4.3 step 1: resolve both sequence numbers via
the Index Store's exact-sequence lookup; the lookup yields no comparison data
when either record is absent. -/
def opensearchCompareImages (env : CompareEnv) (project_id : String)
    (sequence_1 sequence_2 : Nat) : Option (ImageRecord × ImageRecord) :=
  match env.getBySequence project_id sequence_1,
        env.getBySequence project_id sequence_2 with
  | some image_1, some image_2 => some (image_1, image_2)
  | _, _ => none

/-- Outcome of the `/compare` route handler. -/
inductive RouteOutcome where
  | cachedResponse (payload : String)
  | httpError (status_code : Nat) (detail : String)
  | response (body : ComparisonStructured)
deriving DecidableEq, Repr

/-- `compare_images` route (`queries.py` lines 190–248): check the response
cache, resolve the comparison data (404 when absent), structure the
comparison from both records' `text_description`. -/
def compareImagesRoute (env : CompareEnv) (respCache : Cache)
    (project_id : String) (sequence_1 sequence_2 : Nat) (question : Option String) :
    RouteOutcome :=
  let cache_key := "comparison:" ++ project_id ++ ":" ++ toString sequence_1 ++
    ":" ++ toString sequence_2
  let cached := cacheGet respCache cache_key
  if strTruthy cached then
    .cachedResponse (cached.getD "")
  else
    match opensearchCompareImages env project_id sequence_1 sequence_2 with
    | none => .httpError 404 "Images not found"
    | some (image_1, image_2) =>
      .response (structureComparisonResponse
        image_1.text_description image_2.text_description
        (question.getD "What are the differences?"))

/-! ## Sequence assignment at upload (`app/routes/uploads.py`)

`upload_file` reads `current_sequence = await opensearch.get_sequence_count
(project_id)` and assigns `sequence_number = current_sequence + 1`; the
record with that sequence number is persisted later by the enrichment task's
index write.  Two concurrent uploads to one project are modelled as a
small-step interleaving of their read and persist actions. -/

/-- The per-project slice of the Index Store: persisted records as
`(image_id, sequence_number)` pairs. -/
abbrev ProjIndex := List (String × Nat)

/-- Modelled from the spec: `opensearch.get_sequence_count` (the OpenSearch
client is not under `src/`).  §4.4/§6: it returns the current per-project
count of persisted records. -/
def getSequenceCount (idx : ProjIndex) : Nat := idx.length

/-- Joint state of two in-flight uploads A and B to the same project:
the project's index plus each upload's read count (once taken) and whether
its record has been persisted. -/
structure TwoUploadState where
  idx : ProjIndex
  aRead : Option Nat
  aDone : Bool
  bRead : Option Nat
  bDone : Bool
deriving DecidableEq, Repr

/-- The atomic actions of the two uploads: the `get_sequence_count` read and
the eventual index write of the record carrying `read + 1`. -/
inductive UploadAction where
  | aRead
  | aPersist
  | bRead
  | bPersist
deriving DecidableEq, Repr

def stepUpload (s : TwoUploadState) : UploadAction → TwoUploadState
  | .aRead =>
    match s.aRead with
    | none => { s with aRead := some (getSequenceCount s.idx) }
    | some _ => s
  | .aPersist =>
    match s.aRead, s.aDone with
    | some c, false => { s with idx := s.idx ++ [("image-a", c + 1)], aDone := true }
    | _, _ => s
  | .bRead =>
    match s.bRead with
    | none => { s with bRead := some (getSequenceCount s.idx) }
    | some _ => s
  | .bPersist =>
    match s.bRead, s.bDone with
    | some c, false => { s with idx := s.idx ++ [("image-b", c + 1)], bDone := true }
    | _, _ => s

def runSchedule (s : TwoUploadState) (sched : List UploadAction) : TwoUploadState :=
  sched.foldl stepUpload s

def initUploadState : TwoUploadState :=
  { idx := [], aRead := none, aDone := false, bRead := none, bDone := false }

/-! ## Concrete environments used as test inputs

These instantiate the external-collaborator parameters for the closed
(counterexample and witness) theorems below. -/

def cexEnvC2 : EnrichEnv :=
  { fetchBlob := fun _ => .error .blobFetch,
    jsonLoadsVec := fun _ => none,
    jsonDumpsVec := fun _ => "[]",
    embedImage := fun _ => .ok [1],
    generateCaption := fun _ => .ok "a cat" }

def cexEnvC3 : EnrichEnv :=
  { fetchBlob := fun _ => .ok [9],
    jsonLoadsVec := fun _ => none,
    jsonDumpsVec := fun _ => "[0.1]",
    embedImage := fun _ => .ok [3, 4],
    generateCaption := fun _ => .ok "a dog" }

def cexCacheC3 : Cache := [("embedding:img-2", "")]

def c3hitCache : Cache := [("embedding:img-3", "[3, 4]"), ("caption:img-3", "a dog")]

def c3hitEnv : EnrichEnv :=
  { fetchBlob := fun _ => .ok [9],
    jsonLoadsVec := fun s => if s = "[3, 4]" then some [3, 4] else none,
    jsonDumpsVec := fun _ => "[]",
    embedImage := fun _ => .ok [5, 6],
    generateCaption := fun _ => .ok "a cow" }

def cexEnvC8 : EnrichEnv :=
  { fetchBlob := fun _ => .ok [7, 7],
    jsonLoadsVec := fun _ => none,
    jsonDumpsVec := fun _ => "[]",
    embedImage := fun _ => .ok [1, 2],
    generateCaption := fun _ => .ok "a cat" }

def cexCacheC8 : Cache := [("embedding:img-1", "not json")]

def recA : ImageRecord :=
  { project_id := "p", image_id := "img-a", s3_key := "p/a.jpg", filename := "a.jpg",
    embedding := [1], sequence_number := 1, text_description := "a cat",
    metadata_size_bytes := 3 }

def cexEnvC6 : CompareEnv :=
  { getBySequence := fun _ n => if n = 1 then some recA else none,
    fetchBlob := fun _ => .ok [0],
    compareImages := fun _ _ => .ok ⟨"a", "b", "s"⟩ }

def cexCacheC6 : Cache := []

def idemEnv : EnrichEnv :=
  { fetchBlob := fun _ => .ok [1, 2, 3],
    jsonLoadsVec := fun _ => none,
    jsonDumpsVec := fun _ => "",
    embedImage := fun _ => .ok [7],
    generateCaption := fun _ => .ok "a cat" }

/-! ## Facts about the cache store -/

theorem cacheGet_cacheSet_self (c : Cache) (k v : String) :
    cacheGet (cacheSet c k v) k = some v := by
  simp [cacheGet, cacheSet, List.find?]

theorem cacheGet_cacheSet_ne (c : Cache) (k k' v : String) (h : k' ≠ k) :
    cacheGet (cacheSet c k v) k' = cacheGet c k' := by
  simp only [cacheGet, cacheSet, List.find?]
  simp [h.symm]

/-! ## Shared facts about the cache keys and the pipeline steps -/

theorem captionKey_ne_embeddingKey (image_id : String) :
    captionKey image_id ≠ embeddingKey image_id := by
  intro h
  have h2 := congrArg String.length h
  simp only [captionKey, embeddingKey, String.length_append] at h2
  have hc : "caption:".length = 8 := rfl
  have he : "embedding:".length = 10 := rfl
  rw [hc, he] at h2
  omega

theorem embeddingKey_ne_captionKey (image_id : String) :
    embeddingKey image_id ≠ captionKey image_id :=
  fun h => captionKey_ne_embeddingKey image_id h.symm

/-- The embedding step touches no cache key other than
`embedding:image_id`. -/
theorem embedStep_cacheOut_get (env : EnrichEnv) (c : Cache) (image_id : String)
    (data : Bytes) (k : String) (hk : k ≠ embeddingKey image_id) :
    cacheGet (embedStep env c image_id data).cacheOut k = cacheGet c k := by
  unfold embedStep embedCompute
  cases hget : cacheGet c (embeddingKey image_id) with
  | none =>
    cases hemb : env.embedImage data with
    | ok v => simp [cacheGet_cacheSet_ne c _ k _ hk]
    | error e => simp
  | some s =>
    by_cases hs : s = ""
    · simp only [hs, if_pos rfl]
      cases hemb : env.embedImage data with
      | ok v => simp [cacheGet_cacheSet_ne c _ k _ hk]
      | error e => simp
    · simp only [if_neg hs]
      cases hp : env.jsonLoadsVec s <;> simp

/-- The caption step touches no cache key other than `caption:image_id`. -/
theorem captionStep_cacheOut_get (env : EnrichEnv) (c : Cache) (image_id : String)
    (data : Bytes) (k : String) (hk : k ≠ captionKey image_id) :
    cacheGet (captionStep env c image_id data).cacheOut k = cacheGet c k := by
  unfold captionStep captionCompute
  cases hget : cacheGet c (captionKey image_id) with
  | none =>
    cases hcap : env.generateCaption data with
    | ok v => simp [cacheGet_cacheSet_ne c _ k _ hk]
    | error e => simp
  | some s =>
    by_cases hs : s = ""
    · simp only [hs, if_pos rfl]
      cases hcap : env.generateCaption data with
      | ok v => simp [cacheGet_cacheSet_ne c _ k _ hk]
      | error e => simp
    · simp only [if_neg hs]

/-! ## C1 — retry backoff of the Worker Dispatcher -/

/-- C1, counterexample: the claim says a failure at `retry_count = 0` is
re-enqueued after `base_delay * 2^0 = 2` seconds, but the code
(`countdown=2**self.request.retries`) re-enqueues after `2^0 = 1` second. -/
theorem C1_counterexample :
    onTaskException 0 = .retryAfter 1 1 ∧ (1 : Nat) ≠ 2 * 2 ^ 0 := by decide

/-- C1 (amended): for every failed execution attempt of an enrichment or
comparison task invocation with `retry_count < max_retries` (= 3), the
dispatcher re-enqueues the invocation with `retry_count + 1` after a delay of
`2^retry_count` seconds (delays 1, 2, 4 for retry_count 0, 1, 2). -/
theorem C1_retry_backoff {α : Type} (retry_count : Nat)
    (hlt : retry_count < maxRetries) (e : PErr) (r : Except PErr α)
    (hr : r = .error e) :
    taskDispatch retry_count r = .retryAfter (2 ^ retry_count) (retry_count + 1) := by
  subst hr
  simp [taskDispatch, onTaskException, hlt]

theorem C1_retry_backoff_witness :
    taskDispatch 0 (Except.error PErr.blobFetch : Except PErr ProcessResult) =
      .retryAfter 1 1 :=
  C1_retry_backoff 0 (by decide) PErr.blobFetch _ rfl

/-! ## C7 — comparison confidence score -/

/-- C7, counterexample: with both descriptions empty the claimed formula
(fraction of non-empty descriptions, times any damping factor) yields `0`,
but `structure_comparison_response` returns the constant `0.85`. -/
theorem C7_counterexample :
    (structureComparisonResponse "" "" "what changed").confidence = 85 / 100 ∧
    specFractionNonEmpty "" "" = 0 ∧ (85 / 100 : ℚ) ≠ 0 := by
  refine ⟨rfl, by norm_num [specFractionNonEmpty], by norm_num⟩

/-- C7 (amended): the comparison confidence is the constant `0.85`,
independent of description completeness; it lies in `[0,1]` and is strictly
less than `1.0`. -/
theorem C7_confidence_constant (image_1_desc image_2_desc question : String) :
    (structureComparisonResponse image_1_desc image_2_desc question).confidence = 85 / 100 ∧
    0 ≤ (structureComparisonResponse image_1_desc image_2_desc question).confidence ∧
    (structureComparisonResponse image_1_desc image_2_desc question).confidence < 1 := by
  refine ⟨rfl, ?_, ?_⟩ <;> norm_num [structureComparisonResponse]

/-! ## C9 — sequence numbers under concurrent uploads -/

/-- C9: under the interleaving `read_A; read_B; persist_A; persist_B` from an
empty project, both uploads read sequence count `0` and both persist records
with `sequence_number = 1`: the final persisted sequence numbers are not
unique, contradicting the claimed invariant. -/
theorem C9_duplicate_sequence_numbers :
    (runSchedule initUploadState
        [.aRead, .bRead, .aPersist, .bPersist]).idx =
      [("image-a", 1), ("image-b", 1)] ∧
    ¬ ((runSchedule initUploadState
        [.aRead, .bRead, .aPersist, .bPersist]).idx.map Prod.snd).Nodup := by
  decide

/-! ## C2 — no partial index write -/

/-- C2: if any of the blob fetch, embedding, or caption steps fails, the
pipeline aborts before the index write (`indexWrite = none`); the index write
happens only on a fully successful run, and every written record carries the
computed embedding and caption (no partial record). -/
theorem C2_no_partial_write (env : EnrichEnv) (c : Cache)
    (project_id image_id s3_key : String) (sequence_number : Nat) :
    (∀ e, (processImageAsync env c project_id image_id s3_key sequence_number).result =
        .error e →
      (processImageAsync env c project_id image_id s3_key sequence_number).indexWrite =
        none) ∧
    (∀ r, (processImageAsync env c project_id image_id s3_key sequence_number).indexWrite =
        some r →
      ∃ res, (processImageAsync env c project_id image_id s3_key sequence_number).result =
          .ok res ∧ res.status = "success" ∧
        r.text_description = res.caption ∧
        r.embedding.length = res.embedding_dimension) := by
  unfold processImageAsync
  cases hf : env.fetchBlob s3_key with
  | error e => simp
  | ok data =>
    dsimp only
    cases he : (embedStep env c image_id data).value with
    | error e => simp
    | ok v =>
      dsimp only
      cases hcap :
          (captionStep env (embedStep env c image_id data).cacheOut image_id data).value with
      | error e => simp
      | ok cap => simp

theorem C2_no_partial_write_witness :
    (processImageAsync cexEnvC2 [] "p" "img-0" "p/a.jpg" 1).indexWrite = none :=
  (C2_no_partial_write cexEnvC2 [] "p" "img-0" "p/a.jpg" 1).1 .blobFetch rfl

/-! ## C3 — cache hits short-circuit the capabilities -/

/-- C3, counterexample: the cache contains an entry (the empty string) under
`embedding:img-2`, yet the pipeline invokes the embedding capability, because
the code tests Python truthiness (`if cached_embedding:`), not presence. -/
theorem C3_counterexample :
    cacheGet cexCacheC3 (embeddingKey "img-2") = some "" ∧
    (processImageAsync cexEnvC3 cexCacheC3 "p" "img-2" "p/b.jpg" 1).embedCalled = true := by
  decide

/-- C3 (amended): a truthy (non-empty) and well-formed cache entry under
`embedding:image_id` short-circuits the embedding capability and its parsed
value is the one written to the index; a truthy entry under
`caption:image_id` short-circuits the caption capability and is used
verbatim. -/
theorem C3_cache_hit_short_circuit (env : EnrichEnv) (c : Cache)
    (project_id image_id s3_key : String) (sequence_number : Nat) :
    (∀ s v, cacheGet c (embeddingKey image_id) = some s → s ≠ "" →
      env.jsonLoadsVec s = some v →
      (processImageAsync env c project_id image_id s3_key sequence_number).embedCalled =
        false ∧
      (∀ r, (processImageAsync env c project_id image_id s3_key
          sequence_number).indexWrite = some r → r.embedding = v)) ∧
    (∀ s, cacheGet c (captionKey image_id) = some s → s ≠ "" →
      (processImageAsync env c project_id image_id s3_key sequence_number).captionCalled =
        false ∧
      (∀ r, (processImageAsync env c project_id image_id s3_key
          sequence_number).indexWrite = some r → r.text_description = s)) := by
  constructor
  · intro s v hs hne hparse
    unfold processImageAsync
    cases hf : env.fetchBlob s3_key with
    | error e => exact ⟨rfl, by simp⟩
    | ok data =>
      dsimp only
      have hstep : embedStep env c image_id data = ⟨.ok v, c, false⟩ := by
        unfold embedStep
        rw [hs]
        simp [hne, hparse]
      rw [hstep]
      dsimp only
      cases hcap : (captionStep env c image_id data).value with
      | error e => exact ⟨rfl, by simp⟩
      | ok cap =>
        refine ⟨rfl, fun r hr => ?_⟩
        cases hr
        rfl
  · intro s hs hne
    unfold processImageAsync
    cases hf : env.fetchBlob s3_key with
    | error e => exact ⟨rfl, by simp⟩
    | ok data =>
      dsimp only
      have hpres : cacheGet (embedStep env c image_id data).cacheOut
          (captionKey image_id) = some s := by
        rw [embedStep_cacheOut_get env c image_id data _
          (captionKey_ne_embeddingKey image_id)]
        exact hs
      cases he : (embedStep env c image_id data).value with
      | error e => exact ⟨rfl, by simp⟩
      | ok v =>
        have hstep : captionStep env (embedStep env c image_id data).cacheOut image_id data =
            ⟨.ok s, (embedStep env c image_id data).cacheOut, false⟩ := by
          unfold captionStep
          rw [hpres]
          simp [hne]
        rw [hstep]
        dsimp only
        refine ⟨rfl, fun r hr => ?_⟩
        cases hr
        rfl

theorem C3_cache_hit_short_circuit_witness :
    (processImageAsync c3hitEnv c3hitCache "p" "img-3" "p/c.jpg" 2).embedCalled = false ∧
    (processImageAsync c3hitEnv c3hitCache "p" "img-3" "p/c.jpg" 2).captionCalled = false :=
  ⟨((C3_cache_hit_short_circuit c3hitEnv c3hitCache "p" "img-3" "p/c.jpg" 2).1
      "[3, 4]" [3, 4] (by decide) (by decide) (by decide)).1,
   ((C3_cache_hit_short_circuit c3hitEnv c3hitCache "p" "img-3" "p/c.jpg" 2).2
      "a dog" (by decide) (by decide)).1⟩

/-! ## C8 — present but malformed cache entries -/

/-- C8, counterexample: with a present but malformed entry under
`embedding:img-1`, the pipeline attempt fails with a JSON decode error and
the embedding capability is never invoked — the entry is not treated as a
cache miss. -/
theorem C8_counterexample :
    cacheGet cexCacheC8 (embeddingKey "img-1") = some "not json" ∧
    cexEnvC8.jsonLoadsVec "not json" = none ∧
    (processImageAsync cexEnvC8 cexCacheC8 "p" "img-1" "p/a.jpg" 1).result =
      .error .jsonDecode ∧
    (processImageAsync cexEnvC8 cexCacheC8 "p" "img-1" "p/a.jpg" 1).embedCalled = false := by
  decide

/-- C8 (amended): a present, truthy but malformed entry under
`embedding:image_id` makes the enrichment attempt fail with a JSON decode
error (`json.loads` raises), propagating to the retry policy; the embedding
capability is not invoked and nothing is written to the index. -/
theorem C8_malformed_entry_fails (env : EnrichEnv) (c : Cache)
    (project_id image_id s3_key : String) (sequence_number : Nat)
    (data : Bytes) (s : String)
    (hf : env.fetchBlob s3_key = .ok data)
    (hs : cacheGet c (embeddingKey image_id) = some s)
    (hne : s ≠ "")
    (hparse : env.jsonLoadsVec s = none) :
    (processImageAsync env c project_id image_id s3_key sequence_number).result =
      .error .jsonDecode ∧
    (processImageAsync env c project_id image_id s3_key sequence_number).embedCalled =
      false ∧
    (processImageAsync env c project_id image_id s3_key sequence_number).indexWrite =
      none := by
  unfold processImageAsync
  rw [hf]
  dsimp only
  have hstep : embedStep env c image_id data = ⟨.error .jsonDecode, c, false⟩ := by
    unfold embedStep
    rw [hs]
    simp [hne, hparse]
  rw [hstep]
  exact ⟨rfl, rfl, rfl⟩

theorem C8_malformed_entry_fails_witness :
    (processImageAsync cexEnvC8 cexCacheC8 "q" "img-1" "q/b.jpg" 2).result =
      .error .jsonDecode ∧
    (processImageAsync cexEnvC8 cexCacheC8 "q" "img-1" "q/b.jpg" 2).embedCalled = false ∧
    (processImageAsync cexEnvC8 cexCacheC8 "q" "img-1" "q/b.jpg" 2).indexWrite = none :=
  C8_malformed_entry_fails cexEnvC8 cexCacheC8 "q" "img-1" "q/b.jpg" 2 [7, 7] "not json"
    rfl (by decide) (by decide) rfl

/-! ## C6 — missing records in the comparison pipeline -/

/-- C6, counterexample: with sequence 2 absent from the index, the worker's
comparison body returns the `{"status": "error", "message": "Images not
found"}` dict normally — it raises no `RecordNotFoundError` (no such error
type exists in the code), so the task is acknowledged as a success. -/
theorem C6_counterexample :
    compareImagesAsync cexEnvC6 "p" 1 2 = .ok (.errorDict "Images not found") ∧
    taskDispatch 0 (compareImagesAsync cexEnvC6 "p" 1 2) = .acknowledged := by
  decide

/-- C6 (amended): if either sequence number has no record, the worker
comparison body returns a terminal `{"status": "error", "message": "Images
not found"}` dict without raising, so the dispatcher acknowledges it and
never retries; the synchronous `/compare` route surfaces the condition as an
HTTP 404 not-found (not a generic failure). -/
theorem C6_missing_record (env : CompareEnv) (respCache : Cache)
    (project_id : String) (sequence_1 sequence_2 : Nat) (question : Option String)
    (retry_count : Nat)
    (hmiss : env.getBySequence project_id sequence_1 = none ∨
      env.getBySequence project_id sequence_2 = none) :
    compareImagesAsync env project_id sequence_1 sequence_2 =
      .ok (.errorDict "Images not found") ∧
    taskDispatch retry_count
      (compareImagesAsync env project_id sequence_1 sequence_2) = .acknowledged ∧
    (strTruthy (cacheGet respCache ("comparison:" ++ project_id ++ ":" ++
        toString sequence_1 ++ ":" ++ toString sequence_2)) = false →
      compareImagesRoute env respCache project_id sequence_1 sequence_2 question =
        .httpError 404 "Images not found") := by
  have hres : compareImagesAsync env project_id sequence_1 sequence_2 =
      .ok (.errorDict "Images not found") := by
    unfold compareImagesAsync
    rcases hmiss with h1 | h2
    · rw [h1]
    · cases h1 : env.getBySequence project_id sequence_1 with
      | none => rfl
      | some i1 => rw [h2]
  have hosm : opensearchCompareImages env project_id sequence_1 sequence_2 = none := by
    unfold opensearchCompareImages
    rcases hmiss with h1 | h2
    · rw [h1]
    · cases h1 : env.getBySequence project_id sequence_1 with
      | none => rfl
      | some i1 => rw [h2]
  refine ⟨hres, by rw [hres]; rfl, fun hcache => ?_⟩
  unfold compareImagesRoute
  simp only [hcache, Bool.false_eq_true, if_false, hosm]

theorem C6_missing_record_witness :
    compareImagesAsync cexEnvC6 "p" 1 2 = .ok (.errorDict "Images not found") ∧
    compareImagesRoute cexEnvC6 cexCacheC6 "p" 1 2 none =
      .httpError 404 "Images not found" :=
  ⟨(C6_missing_record cexEnvC6 cexCacheC6 "p" 1 2 none 0 (Or.inr (by decide))).1,
   (C6_missing_record cexEnvC6 cexCacheC6 "p" 1 2 none 0 (Or.inr (by decide))).2.2
     (by decide)⟩

/-! ## C5, C10 — the change classifier -/

theorem mem_setDiff {w : String} {xs ys : List String} :
    w ∈ setDiff xs ys ↔ w ∈ xs ∧ w ∉ ys := by
  simp [setDiff, List.mem_filter, List.mem_dedup]

theorem setDiff_eq_nil {xs ys : List String} (h : ∀ w ∈ xs, w ∈ ys) :
    setDiff xs ys = [] := by
  rw [setDiff, List.filter_eq_nil_iff]
  intro a ha
  simpa using h a (List.mem_dedup.1 ha)

/-- Two descriptions with the same token set classify as a single `similar`
entry. -/
theorem detectChanges_similar {desc_1 desc_2 : String}
    (hiff : ∀ w, w ∈ pyWords desc_1 ↔ w ∈ pyWords desc_2) :
    detectChanges desc_1 desc_2 =
      [⟨"similar", "Images appear similar with no major changes detected."⟩] := by
  have ha : setDiff (pyWords desc_2) (pyWords desc_1) = [] :=
    setDiff_eq_nil (fun w hw => (hiff w).mpr hw)
  have hr : setDiff (pyWords desc_1) (pyWords desc_2) = [] :=
    setDiff_eq_nil (fun w hw => (hiff w).mp hw)
  unfold detectChanges
  dsimp only
  rw [if_neg (not_not_intro ha), if_neg (not_not_intro hr), List.nil_append,
    if_pos rfl]

/-- C5: tokens present only in the second description produce an `addition`
entry, tokens present only in the first a `removal` entry; with no
asymmetric tokens the result is exactly one `similar` entry — in particular
for identical descriptions — and `"a red car"` vs `"a red car parked"`
classifies as a single addition mentioning `parked`, with no removal. -/
theorem C5_change_classifier (desc_1 desc_2 : String) :
    ((∃ w, w ∈ pyWords desc_2 ∧ w ∉ pyWords desc_1) →
      ∃ ch ∈ detectChanges desc_1 desc_2, ch.type = "addition") ∧
    ((∃ w, w ∈ pyWords desc_1 ∧ w ∉ pyWords desc_2) →
      ∃ ch ∈ detectChanges desc_1 desc_2, ch.type = "removal") ∧
    ((∀ w, w ∈ pyWords desc_1 ↔ w ∈ pyWords desc_2) →
      detectChanges desc_1 desc_2 =
        [⟨"similar", "Images appear similar with no major changes detected."⟩]) ∧
    detectChanges desc_1 desc_1 =
      [⟨"similar", "Images appear similar with no major changes detected."⟩] ∧
    detectChanges "a red car" "a red car parked" =
      [⟨"addition", "New elements detected: parked"⟩] := by
  refine ⟨?_, ?_, fun hiff => detectChanges_similar hiff,
    detectChanges_similar (fun w => Iff.rfl), by decide⟩
  · rintro ⟨w, h2, h1⟩
    have hne : setDiff (pyWords desc_2) (pyWords desc_1) ≠ [] :=
      List.ne_nil_of_mem (mem_setDiff.2 ⟨h2, h1⟩)
    unfold detectChanges
    dsimp only
    rw [if_pos hne, List.singleton_append, if_neg (List.cons_ne_nil _ _)]
    exact ⟨_, List.mem_cons_self _ _, rfl⟩
  · rintro ⟨w, h1, h2⟩
    have hne : setDiff (pyWords desc_1) (pyWords desc_2) ≠ [] :=
      List.ne_nil_of_mem (mem_setDiff.2 ⟨h1, h2⟩)
    unfold detectChanges
    dsimp only
    rw [if_pos hne]
    by_cases ha : setDiff (pyWords desc_2) (pyWords desc_1) = []
    · rw [if_neg (not_not_intro ha), List.nil_append,
        if_neg (List.cons_ne_nil _ _)]
      exact ⟨_, List.mem_cons_self _ _, rfl⟩
    · rw [if_pos ha, List.singleton_append,
        if_neg (List.cons_ne_nil _ _)]
      exact ⟨_, List.mem_cons_of_mem _ (List.mem_cons_self _ _), rfl⟩

theorem C5_change_classifier_witness :
    (∃ ch ∈ detectChanges "a" "a b", ch.type = "addition") ∧
    detectChanges "b" "b" =
      [⟨"similar", "Images appear similar with no major changes detected."⟩] :=
  ⟨(C5_change_classifier "a" "a b").1 ⟨"b", by decide, by decide⟩,
   (C5_change_classifier "b" "b").2.2.1 (fun w => Iff.rfl)⟩

/-- C10: the classifier's output is never empty, every entry's type is
`addition`, `removal` or `similar` (in particular `modification` is never
produced), and each addition (resp. removal) description joins exactly the
first 5 of the tokens present only in the second (resp. first) description —
a list of at most 5 differing tokens. -/
theorem C10_change_entry_shape (desc_1 desc_2 : String) :
    detectChanges desc_1 desc_2 ≠ [] ∧
    (∀ ch ∈ detectChanges desc_1 desc_2,
      (ch.type = "addition" ∨ ch.type = "removal" ∨ ch.type = "similar") ∧
      ch.type ≠ "modification" ∧
      (ch.type = "addition" →
        ch.description = "New elements detected: " ++ String.intercalate ", "
          ((setDiff (pyWords desc_2) (pyWords desc_1)).take 5) ∧
        ((setDiff (pyWords desc_2) (pyWords desc_1)).take 5).length ≤ 5) ∧
      (ch.type = "removal" →
        ch.description = "Elements removed: " ++ String.intercalate ", "
          ((setDiff (pyWords desc_1) (pyWords desc_2)).take 5) ∧
        ((setDiff (pyWords desc_1) (pyWords desc_2)).take 5).length ≤ 5)) := by
  unfold detectChanges
  dsimp only
  by_cases ha : setDiff (pyWords desc_2) (pyWords desc_1) = []
  · by_cases hr : setDiff (pyWords desc_1) (pyWords desc_2) = []
    · rw [if_neg (not_not_intro ha), if_neg (not_not_intro hr), List.nil_append,
        if_pos rfl]
      refine ⟨List.cons_ne_nil _ _, ?_⟩
      intro ch hch
      rw [List.mem_singleton] at hch
      subst hch
      refine ⟨Or.inr (Or.inr rfl), ?_, ?_, ?_⟩
      · show "similar" ≠ "modification"
        decide
      · intro h
        exact absurd (show "similar" = "addition" from h) (by decide)
      · intro h
        exact absurd (show "similar" = "removal" from h) (by decide)
    · rw [if_neg (not_not_intro ha), if_pos hr, List.nil_append,
        if_neg (List.cons_ne_nil _ _)]
      refine ⟨List.cons_ne_nil _ _, ?_⟩
      intro ch hch
      rw [List.mem_singleton] at hch
      subst hch
      refine ⟨Or.inr (Or.inl rfl), ?_, ?_, ?_⟩
      · show "removal" ≠ "modification"
        decide
      · intro h
        exact absurd (show "removal" = "addition" from h) (by decide)
      · intro _
        exact ⟨rfl, List.length_take_le _ _⟩
  · by_cases hr : setDiff (pyWords desc_1) (pyWords desc_2) = []
    · rw [if_pos ha, if_neg (not_not_intro hr), List.append_nil,
        if_neg (List.cons_ne_nil _ _)]
      refine ⟨List.cons_ne_nil _ _, ?_⟩
      intro ch hch
      rw [List.mem_singleton] at hch
      subst hch
      refine ⟨Or.inl rfl, ?_, ?_, ?_⟩
      · show "addition" ≠ "modification"
        decide
      · intro _
        exact ⟨rfl, List.length_take_le _ _⟩
      · intro h
        exact absurd (show "addition" = "removal" from h) (by decide)
    · rw [if_pos ha, if_pos hr, List.singleton_append,
        if_neg (List.cons_ne_nil _ _)]
      refine ⟨List.cons_ne_nil _ _, ?_⟩
      intro ch hch
      rcases List.mem_cons.1 hch with hch | hch
      · subst hch
        refine ⟨Or.inl rfl, ?_, ?_, ?_⟩
        · show "addition" ≠ "modification"
          decide
        · intro _
          exact ⟨rfl, List.length_take_le _ _⟩
        · intro h
          exact absurd (show "addition" = "removal" from h) (by decide)
      · rw [List.mem_singleton] at hch
        subst hch
        refine ⟨Or.inr (Or.inl rfl), ?_, ?_, ?_⟩
        · show "removal" ≠ "modification"
          decide
        · intro h
          exact absurd (show "removal" = "addition" from h) (by decide)
        · intro _
          exact ⟨rfl, List.length_take_le _ _⟩

theorem C10_change_entry_shape_witness :
    ((⟨"addition", "New elements detected: b, c"⟩ : Change).type = "addition" ∨
      (⟨"addition", "New elements detected: b, c"⟩ : Change).type = "removal" ∨
      (⟨"addition", "New elements detected: b, c"⟩ : Change).type = "similar") ∧
    (⟨"addition", "New elements detected: b, c"⟩ : Change).type ≠ "modification" ∧
    ((⟨"addition", "New elements detected: b, c"⟩ : Change).type = "addition" →
      (⟨"addition", "New elements detected: b, c"⟩ : Change).description =
        "New elements detected: " ++ String.intercalate ", "
          ((setDiff (pyWords "a b c") (pyWords "a")).take 5) ∧
      ((setDiff (pyWords "a b c") (pyWords "a")).take 5).length ≤ 5) ∧
    ((⟨"addition", "New elements detected: b, c"⟩ : Change).type = "removal" →
      (⟨"addition", "New elements detected: b, c"⟩ : Change).description =
        "Elements removed: " ++ String.intercalate ", "
          ((setDiff (pyWords "a") (pyWords "a b c")).take 5) ∧
      ((setDiff (pyWords "a") (pyWords "a b c")).take 5).length ≤ 5) :=
  (C10_change_entry_shape "a" "a b c").2
    ⟨"addition", "New elements detected: b, c"⟩ (by decide)

/-! ## C4 — idempotence of re-enrichment -/

/-- Effect of the compute branch of the embedding step: the capability's
value is returned and its serialization is cached under the embedding key. -/
theorem embedCompute_ok (env : EnrichEnv) (c0 : Cache) (image_id : String)
    (data : Bytes) (v : Vec)
    (h0 : (embedCompute env c0 image_id data).value = .ok v) :
    env.embedImage data = .ok v ∧
    cacheGet (embedCompute env c0 image_id data).cacheOut (embeddingKey image_id) =
      some (env.jsonDumpsVec v) := by
  unfold embedCompute at h0 ⊢
  cases hemb : env.embedImage data with
  | error e =>
    rw [hemb] at h0
    dsimp only at h0
    exact Except.noConfusion h0
  | ok w =>
    rw [hemb] at h0
    dsimp only at h0
    injection h0 with h0
    subst h0
    refine ⟨rfl, ?_⟩
    dsimp only
    exact cacheGet_cacheSet_self _ _ _

/-- Re-running the embedding step against any cache whose embedding entry
agrees with the first run's output cache yields the same embedding, provided
deserialization inverts serialization on truthy strings. -/
theorem embedStep_stable (env : EnrichEnv)
    (hrt : ∀ v, env.jsonDumpsVec v ≠ "" →
      env.jsonLoadsVec (env.jsonDumpsVec v) = some v)
    (c c' : Cache) (image_id : String) (data : Bytes) (v : Vec)
    (h : (embedStep env c image_id data).value = .ok v)
    (hc : cacheGet c' (embeddingKey image_id) =
      cacheGet (embedStep env c image_id data).cacheOut (embeddingKey image_id)) :
    (embedStep env c' image_id data).value = .ok v := by
  unfold embedStep at h hc ⊢
  cases hget : cacheGet c (embeddingKey image_id) with
  | none =>
    rw [hget] at h hc
    dsimp only at h hc
    obtain ⟨hemb, hset⟩ := embedCompute_ok env c image_id data v h
    rw [hset] at hc
    rw [hc]
    dsimp only
    by_cases hdw : env.jsonDumpsVec v = ""
    · rw [if_pos hdw]
      unfold embedCompute
      rw [hemb]
    · rw [if_neg hdw, hrt v hdw]
  | some s =>
    rw [hget] at h hc
    dsimp only at h hc
    by_cases hs : s = ""
    · rw [if_pos hs] at h hc
      obtain ⟨hemb, hset⟩ := embedCompute_ok env c image_id data v h
      rw [hset] at hc
      rw [hc]
      dsimp only
      by_cases hdw : env.jsonDumpsVec v = ""
      · rw [if_pos hdw]
        unfold embedCompute
        rw [hemb]
      · rw [if_neg hdw, hrt v hdw]
    · rw [if_neg hs] at h hc
      cases hp : env.jsonLoadsVec s with
      | none =>
        rw [hp] at h
        dsimp only at h
        exact Except.noConfusion h
      | some w =>
        rw [hp] at h hc
        dsimp only at h hc
        injection h with h
        subst h
        rw [hget] at hc
        rw [hc]
        dsimp only
        rw [if_neg hs, hp]

/-- Re-running the caption step against any cache whose caption entry agrees
with the first run's output cache yields the same caption. -/
theorem captionStep_stable (env : EnrichEnv) (c c' : Cache) (image_id : String)
    (data : Bytes) (cap : String)
    (h : (captionStep env c image_id data).value = .ok cap)
    (hc : cacheGet c' (captionKey image_id) =
      cacheGet (captionStep env c image_id data).cacheOut (captionKey image_id)) :
    (captionStep env c' image_id data).value = .ok cap := by
  have hcompute : ∀ (c0 : Cache),
      (captionCompute env c0 image_id data).value = .ok cap →
      env.generateCaption data = .ok cap ∧
      cacheGet (captionCompute env c0 image_id data).cacheOut (captionKey image_id) =
        some cap := by
    intro c0 h0
    unfold captionCompute at h0 ⊢
    cases hcap : env.generateCaption data with
    | error e =>
      rw [hcap] at h0
      dsimp only at h0
      exact Except.noConfusion h0
    | ok w =>
      rw [hcap] at h0
      dsimp only at h0
      injection h0 with h0
      subst h0
      refine ⟨rfl, ?_⟩
      dsimp only
      exact cacheGet_cacheSet_self _ _ _
  unfold captionStep at h hc ⊢
  cases hget : cacheGet c (captionKey image_id) with
  | none =>
    rw [hget] at h hc
    dsimp only at h hc
    obtain ⟨hcap, hset⟩ := hcompute c h
    rw [hset] at hc
    rw [hc]
    dsimp only
    by_cases hcw : cap = ""
    · rw [if_pos hcw]
      unfold captionCompute
      rw [hcap]
    · rw [if_neg hcw]
  | some s =>
    rw [hget] at h hc
    dsimp only at h hc
    by_cases hs : s = ""
    · rw [if_pos hs] at h hc
      obtain ⟨hcap, hset⟩ := hcompute c h
      rw [hset] at hc
      rw [hc]
      dsimp only
      by_cases hcw : cap = ""
      · rw [if_pos hcw]
        unfold captionCompute
        rw [hcap]
      · rw [if_neg hcw]
    · rw [if_neg hs] at h hc
      dsimp only at h hc
      injection h with h
      subst h
      rw [hget] at hc
      rw [hc]
      dsimp only
      rw [if_neg hs]

/-- C4: with the blob fetch and the enrichment capabilities pure functions of
their inputs (as they are modelled) and `json.loads` inverting `json.dumps`,
re-running `_process_image_async` on the cache left by a successful run
passes the same record to the index upsert, so the final Image Record —
including `embedding`, `text_description` and `metadata` — is unchanged. -/
theorem C4_idempotent (env : EnrichEnv)
    (hrt : ∀ v, env.jsonDumpsVec v ≠ "" →
      env.jsonLoadsVec (env.jsonDumpsVec v) = some v)
    (c : Cache) (project_id image_id s3_key : String) (sequence_number : Nat)
    (r1 : ImageRecord)
    (h1 : (processImageAsync env c project_id image_id s3_key
      sequence_number).indexWrite = some r1) :
    (processImageAsync env
        (processImageAsync env c project_id image_id s3_key sequence_number).cacheOut
        project_id image_id s3_key sequence_number).indexWrite = some r1 := by
  cases hf : env.fetchBlob s3_key with
  | error e =>
    exfalso
    unfold processImageAsync at h1
    rw [hf] at h1
    simp at h1
  | ok data =>
    cases he1 : (embedStep env c image_id data).value with
    | error e =>
      exfalso
      unfold processImageAsync at h1
      rw [hf] at h1
      dsimp only at h1
      rw [he1] at h1
      simp at h1
    | ok v =>
      cases hcap1 : (captionStep env (embedStep env c image_id data).cacheOut
          image_id data).value with
      | error e =>
        exfalso
        unfold processImageAsync at h1
        rw [hf] at h1
        dsimp only at h1
        rw [he1] at h1
        dsimp only at h1
        rw [hcap1] at h1
        simp at h1
      | ok cap =>
        have hr1eq : r1 =
            { project_id := project_id, image_id := image_id, s3_key := s3_key,
              filename := lastSegment s3_key, embedding := v,
              sequence_number := sequence_number, text_description := cap,
              metadata_size_bytes := data.length } := by
          unfold processImageAsync at h1
          rw [hf] at h1
          dsimp only at h1
          rw [he1] at h1
          dsimp only at h1
          rw [hcap1] at h1
          dsimp only at h1
          exact (Option.some.inj h1).symm
        have hco1 : (processImageAsync env c project_id image_id s3_key
              sequence_number).cacheOut =
            (captionStep env (embedStep env c image_id data).cacheOut
              image_id data).cacheOut := by
          unfold processImageAsync
          rw [hf]
          dsimp only
          rw [he1]
          dsimp only
          rw [hcap1]
        have he2 := embedStep_stable env hrt c
          (captionStep env (embedStep env c image_id data).cacheOut
            image_id data).cacheOut
          image_id data v he1
          (captionStep_cacheOut_get env (embedStep env c image_id data).cacheOut
            image_id data (embeddingKey image_id)
            (embeddingKey_ne_captionKey image_id))
        have hcap2 := captionStep_stable env
          (embedStep env c image_id data).cacheOut
          (embedStep env
            (captionStep env (embedStep env c image_id data).cacheOut
              image_id data).cacheOut
            image_id data).cacheOut
          image_id data cap hcap1
          (embedStep_cacheOut_get env
            (captionStep env (embedStep env c image_id data).cacheOut
              image_id data).cacheOut
            image_id data (captionKey image_id)
            (captionKey_ne_embeddingKey image_id))
        rw [hco1]
        unfold processImageAsync
        rw [hf]
        dsimp only
        rw [he2]
        dsimp only
        rw [hcap2]
        dsimp only
        rw [hr1eq]

theorem C4_idempotent_witness :
    (processImageAsync idemEnv
        (processImageAsync idemEnv [] "p" "img-9" "p/z.jpg" 4).cacheOut
        "p" "img-9" "p/z.jpg" 4).indexWrite =
      some { project_id := "p", image_id := "img-9", s3_key := "p/z.jpg",
             filename := "z.jpg", embedding := [7], sequence_number := 4,
             text_description := "a cat", metadata_size_bytes := 3 } :=
  C4_idempotent idemEnv (fun _ h => absurd rfl h) [] "p" "img-9" "p/z.jpg" 4
    { project_id := "p", image_id := "img-9", s3_key := "p/z.jpg",
      filename := "z.jpg", embedding := [7], sequence_number := 4,
      text_description := "a cat", metadata_size_bytes := 3 }
    (by decide)

end MetroAI
